import Mathlib

/-
 Shallow embedding of src/lbrynet/core/server/BlobRequestHandler.py.

 The handler answers availability queries, negotiates a payment rate and
 streams blob content while metering bytes for billing.  External
 collaborators (blob manager, pricing strategy, wallet, peer stats) are
 modelled as function parameters (`Env`) and as observable effect logs
 carried in the handler state (`upload_history`, `expected_payments`,
 peer stat counters).  Twisted deferred chains are sequential here, which
 matches the source: every callback chain in the file is linear.
-/

namespace BlobRequestHandler

/-- A blob as the handler sees it: content-addressed unit owned by the blob
manager.  `validated` mirrors `blob.is_validated()`; `readable` mirrors
whether `blob.open_for_reading()` returns a non-None handle. -/
structure Blob where
  blob_hash : String
  length : Nat
  validated : Bool
  readable : Bool
deriving DecidableEq

/-- Mirrors `blob.open_for_reading()`: a handle exactly when the blob file
can be opened. -/
def Blob.open_for_reading (b : Blob) : Option Unit :=
  if b.readable then some () else none

/-- The strategy's reply to an offer (`self.strategy.respond_to_offer`):
an accepted flag and a rate, as in the spec's NegotiationOutcome. -/
structure OfferReply where
  accepted : Bool
  rate : ℚ
deriving DecidableEq

/-- External collaborators, fixed for the lifetime of one handler:
the pricing strategy (peer identity folded in, since one handler serves one
peer), `blob_manager.get_blob` and `blob_manager.completed_blobs`. -/
structure Env where
  strategy : ℚ → List String → OfferReply
  get_blob : String → Blob
  completed_blobs : List String → List String

/-- The mutable state of one `BlobRequestHandler` instance, plus observable
effect logs for the external collaborators and ghost resource counters.
`open_count` counts acquired read handles, `close_count` counts
`close_read_handle` calls, `get_blob_calls` counts storage lookups. -/
structure State where
  blob_data_payment_rate : Option ℚ
  currently_uploading : Option Blob
  read_handle : Option Unit
  blob_bytes_uploaded : Nat
  file_sender : Bool
  blobs_requested : List String
  upload_history : List (String × ℚ)
  expected_payments : List ℚ
  blob_bytes_stat : Nat
  blobs_uploaded_stat : Nat
  open_count : Nat
  close_count : Nat
  get_blob_calls : Nat
deriving DecidableEq

/-- The state set up by `__init__`. -/
def State.init : State where
  blob_data_payment_rate := none
  currently_uploading := none
  read_handle := none
  blob_bytes_uploaded := 0
  file_sender := false
  blobs_requested := []
  upload_history := []
  expected_payments := []
  blob_bytes_stat := 0
  blobs_uploaded_stat := 0
  open_count := 0
  close_count := 0
  get_blob_calls := 0

/-- The fields of the `incoming_blob` dict; `response_fields = {}` is
`⟨none, none⟩`. -/
structure IncomingBlobFields where
  blob_hash : Option String
  length : Option Nat
deriving DecidableEq

/-- An empty `incoming_blob` dict. -/
def IncomingBlobFields.empty : IncomingBlobFields := ⟨none, none⟩

/-- The accumulated response dict.  `offer_fields` stands for the dict
`Negotiate.make_dict_from_offer(reply)` merged by `request.update(r)`;
its serialization lives outside this file, so it is kept abstract as the
reply it serializes. -/
structure Response where
  available_blobs : Option (List String)
  offer_fields : Option OfferReply
  incoming_blob : Option IncomingBlobFields
  error : Option String
deriving DecidableEq

/-- The empty response dict `{}`. -/
def Response.empty : Response := ⟨none, none, none, none⟩

/-- Mirrors `open_blob_for_reading(self, blob, response)`: when the blob is
validated and a read handle is acquired, store the session
(`currently_uploading`, `read_handle`) and add
`incoming_blob = {blob_hash, length}` to the response; otherwise add
`error = BLOB_UNAVAILABLE`.  Returns `(state, response, blob)` — the
Python returns the pair `(response, blob)` on both paths. -/
def open_blob_for_reading (s : State) (blob : Blob) (response : Response) :
    State × Response × Blob :=
  if blob.validated then
    match Blob.open_for_reading blob with
    | some h =>
        let s := { s with currently_uploading := some blob
                          read_handle := some h
                          open_count := s.open_count + 1 }
        let response := { response with
          incoming_blob := some ⟨some blob.blob_hash, some blob.length⟩ }
        (s, response, blob)
    | none =>
        (s, { response with error := some "BLOB_UNAVAILABLE" }, blob)
  else
    (s, { response with error := some "BLOB_UNAVAILABLE" }, blob)

/-- Mirrors `record_transaction(self, response, blob, rate)`: appends the
`(str(blob), peer.host, rate)` record through
`blob_manager.add_blob_to_upload_history` (the peer host is fixed per
handler and omitted) and passes the response through. -/
def record_transaction (s : State) (response : Response) (blob : Blob)
    (rate : ℚ) : State × Response :=
  ({ s with upload_history := s.upload_history ++ [(blob.blob_hash, rate)] },
   response)

/-- Mirrors `_reply_to_send_request(self, response, incoming)`: always puts
an (initially empty) `incoming_blob` dict into the response; with no
negotiated rate, answers `RATE_UNSET` without touching storage; otherwise
fetches the blob, tries to open it, and chains `record_transaction`
unconditionally with the rate read before the lookup. -/
def _reply_to_send_request (env : Env) (s : State) (response : Response)
    (incoming : String) : State × Response :=
  let response := { response with incoming_blob := some IncomingBlobFields.empty }
  match s.blob_data_payment_rate with
  | none => (s, { response with error := some "RATE_UNSET" })
  | some rate =>
      let s := { s with get_blob_calls := s.get_blob_calls + 1 }
      let blob := env.get_blob incoming
      let step := open_blob_for_reading s blob response
      record_transaction step.1 step.2.1 step.2.2 rate

/-- Mirrors `reply_to_offer(self, offer, request)`: asks the strategy with
the `available_blobs` accumulated so far (default `[]`), stores the rate
only when the reply is accepted, and always merges the serialized reply
into the request. -/
def reply_to_offer (env : Env) (s : State) (offerRate : ℚ)
    (request : Response) : State × Response :=
  let blobs := request.available_blobs.getD []
  let reply := env.strategy offerRate blobs
  let s :=
    if reply.accepted then
      { s with blob_data_payment_rate := some reply.rate }
    else s
  (s, { request with offer_fields := some reply })

/-- Mirrors `_reply_to_availability(self, request, blobs)` composed with
`_get_available_blobs`: asks the blob manager for the completed subset and
updates the request with `available_blobs`. -/
def _reply_to_availability (env : Env) (s : State) (request : Response)
    (blobs : List String) : State × Response :=
  let available := env.completed_blobs blobs
  (s, { request with available_blobs := some available })

/-- The query batch: the three recognized keys
`blob_data_payment_rate`, `requested_blob`, `requested_blobs`, each
optional. -/
structure Queries where
  blob_data_payment_rate : Option ℚ
  requested_blob : Option String
  requested_blobs : Option (List String)
deriving DecidableEq

/-- Mirrors `handle_queries(self, queries)`: starts from `{}`, runs the
availability stage, then the offer stage, then the download stage, in the
source's fixed order.  Note the download stage is invoked as
`self._reply_to_send_request({}, incoming)` — with a fresh empty dict, not
with the accumulated response. -/
def handle_queries (env : Env) (s : State) (q : Queries) : State × Response :=
  let acc := (s, Response.empty)
  let acc :=
    match q.requested_blobs with
    | some blobs =>
        _reply_to_availability env { acc.1 with blobs_requested := blobs }
          acc.2 blobs
    | none => acc
  let acc :=
    match q.blob_data_payment_rate with
    | some offerRate => reply_to_offer env acc.1 offerRate acc.2
    | none => acc
  match q.requested_blob with
  | some incoming => _reply_to_send_request env acc.1 Response.empty incoming
  | none => acc

/-- Mirrors `cancel_send(self, err)`: close the read handle when a session
exists, always clear both session fields, and pass the reason through
unchanged. -/
def cancel_send {α : Type} (s : State) (err : α) : State × α :=
  let s :=
    match s.currently_uploading with
    | some _ => { s with close_count := s.close_count + 1 }
    | none => s
  ({ s with read_handle := none, currently_uploading := none }, err)

/-- Mirrors `count_bytes(data)`: adds the chunk length to the handler's
byte counter and to the peer's `blob_bytes_uploaded` stat. -/
def count_bytes (s : State) (len : Nat) : State :=
  { s with blob_bytes_uploaded := s.blob_bytes_uploaded + len
           blob_bytes_stat := s.blob_bytes_stat + len }

/-- The per-chunk accounting over the whole stream of chunks. -/
def count_all (s : State) (chunks : List Nat) : State :=
  chunks.foldl count_bytes s

/-- Mirrors `set_expected_payment()`: when the byte counter is non-zero and
a rate is set, registers `currently_uploading.length * rate / 2^20` with
the wallet and zeroes the byte counter; always bumps the peer's
`blobs_uploaded` stat. -/
def set_expected_payment (s : State) : State :=
  let s :=
    match s.currently_uploading, s.blob_data_payment_rate with
    | some blob, some rate =>
        if s.blob_bytes_uploaded ≠ 0 then
          { s with
              expected_payments :=
                s.expected_payments ++ [(blob.length : ℚ) * rate / 2 ^ 20],
              blob_bytes_uploaded := 0 }
        else s
    | _, _ => s
  { s with blobs_uploaded_stat := s.blobs_uploaded_stat + 1 }

/-- Mirrors `set_not_uploading(reason)`: close the read handle and clear the
session when one exists; always drop the file sender. -/
def set_not_uploading (s : State) : State :=
  let s :=
    match s.currently_uploading with
    | some _ => { s with close_count := s.close_count + 1
                         read_handle := none
                         currently_uploading := none }
    | none => s
  { s with file_sender := false }

/-- Outcome of one streaming transfer: whether `beginFileTransfer`'s
deferred fired or errbacked. -/
inductive TransferResult
  | success
  | failure
deriving DecidableEq

/-- Mirrors `send_file(self, consumer)`: start the transfer (creating a
`FileSender`), run the per-chunk accounting, then — through the deferred
chain `addCallback(set_expected_payment); addBoth(set_not_uploading)` —
finalize: the expected payment is registered only on success, the handle
release runs on both paths.  The deferred's final value is `None` on both
paths (`set_not_uploading` returns `None`). -/
def send_file (s : State) (chunks : List Nat) (res : TransferResult) :
    State × Option Bool :=
  let s := { s with file_sender := true }
  let s := count_all s chunks
  match res with
  | .success => (set_not_uploading (set_expected_payment s), none)
  | .failure => (set_not_uploading s, none)

/-- Mirrors `send_blob_if_requested(self, consumer)`: with no session,
succeed immediately with `True`; otherwise run `send_file`. -/
def send_blob_if_requested (s : State) (chunks : List Nat)
    (res : TransferResult) : State × Option Bool :=
  match s.currently_uploading with
  | some _ => send_file s chunks res
  | none => (s, some true)

/-- Modelled from the spec: the surrounding transport
(`ServerRequestHandler`, not part of the given source) serves one peer
sequentially.  A `round` is one transport round-trip: the query batch is
handled, the response is sent, and then the transport unconditionally polls
`send_blob_if_requested`; `cancelMid` interrupts the stream with
`cancel_send` (after which the transfer's own `addBoth` cleanup still
runs, as the deferred errbacks).  `cancelOp` is a speculative cancellation
between rounds. -/
inductive TOp
  | round (q : Queries) (chunks : List Nat) (res : TransferResult)
      (cancelMid : Bool)
  | cancelOp

/-- One step of the transport-driven execution of a handler. -/
def runRound (env : Env) (s : State) : TOp → State
  | .round q chunks res cancelMid =>
      let s := (handle_queries env s q).1
      if cancelMid then
        match s.currently_uploading with
        | some _ =>
            let s := { s with file_sender := true }
            let s := count_all s chunks
            let s := (cancel_send s ()).1
            set_not_uploading s
        | none => (cancel_send s ()).1
      else
        (send_blob_if_requested s chunks res).1
  | .cancelOp => (cancel_send s ()).1

/-- A handler execution: the transport runs a sequence of operations
starting from the freshly constructed handler. -/
def runTrace (env : Env) (t : List TOp) : State :=
  t.foldl (runRound env) State.init

/-- The strategy reply produced by the offer stage of one query batch, if
the batch carries an offer: the strategy sees the `available_blobs`
computed by the availability stage of the same batch when present, else
`[]`. -/
def queryOfferReply (env : Env) (q : Queries) : Option OfferReply :=
  match q.blob_data_payment_rate with
  | some offerRate =>
      let avail :=
        match q.requested_blobs with
        | some blobs => env.completed_blobs blobs
        | none => []
      some (env.strategy offerRate avail)
  | none => none

/-- The strategy reply produced by the offer stage of a round, if any. -/
def roundOfferReply (env : Env) : TOp → Option OfferReply
  | .round q _ _ _ => queryOfferReply env q
  | .cancelOp => none

/-- Claim C3: a download request received while the negotiated rate is
unset returns a response carrying `error = RATE_UNSET` (plus the always
pre-inserted empty `incoming_blob` dict) and leaves the handler state
untouched: no session is created, no read handle is opened, no storage
lookup happens, and no billing record is written.  The state equality
covers all of these at once, since opens, lookups and billing are all
observable in the state. -/
theorem rate_unset_reply (env : Env) (s : State) (incoming : String)
    (h : s.blob_data_payment_rate = none) :
    _reply_to_send_request env s Response.empty incoming =
      (s, { Response.empty with
              incoming_blob := some IncomingBlobFields.empty,
              error := some "RATE_UNSET" }) := by
  simp [_reply_to_send_request, h]

/-- Witness for C3: the freshly initialized handler has no rate, and the
download request is answered `RATE_UNSET` with the state unchanged. -/
theorem rate_unset_reply_witness :
    _reply_to_send_request
        ⟨fun _ _ => ⟨true, 1⟩, fun h => ⟨h, 7, true, true⟩, fun l => l⟩
        State.init Response.empty "X" =
      (State.init,
       { Response.empty with
           incoming_blob := some IncomingBlobFields.empty,
           error := some "RATE_UNSET" }) :=
  rate_unset_reply _ State.init "X" rfl

/-- Claim C1 fails on the code: with a negotiated rate of 1 and a download
request for a blob that is not validated, the response is
`BLOB_UNAVAILABLE` and no session is created, yet the upload-history
billing record `("h1", 1)` IS written — `_reply_to_send_request` chains
`record_transaction` unconditionally after `open_blob_for_reading`, on the
failure path too. -/
theorem record_transaction_on_unavailable_path :
    (_reply_to_send_request
        ⟨fun _ _ => ⟨true, 1⟩, fun h => ⟨h, 7, false, false⟩, fun l => l⟩
        { State.init with blob_data_payment_rate := some 1 }
        Response.empty "h1").2.error = some "BLOB_UNAVAILABLE" ∧
    (_reply_to_send_request
        ⟨fun _ _ => ⟨true, 1⟩, fun h => ⟨h, 7, false, false⟩, fun l => l⟩
        { State.init with blob_data_payment_rate := some 1 }
        Response.empty "h1").1.upload_history = [("h1", 1)] ∧
    (_reply_to_send_request
        ⟨fun _ _ => ⟨true, 1⟩, fun h => ⟨h, 7, false, false⟩, fun l => l⟩
        { State.init with blob_data_payment_rate := some 1 }
        Response.empty "h1").1.currently_uploading = none ∧
    (_reply_to_send_request
        ⟨fun _ _ => ⟨true, 1⟩, fun h => ⟨h, 7, false, false⟩, fun l => l⟩
        { State.init with blob_data_payment_rate := some 1 }
        Response.empty "h1").1.open_count = 0 :=
  ⟨rfl, rfl, rfl, rfl⟩

/-- Claim C4 fails on the code: in a batch containing both an availability
request and a download request, the availability stage runs, but the
download stage is invoked with a fresh empty dict (line 77 of the source
passes `{}`, discarding the bound accumulated response `r`), so the final
response has no `available_blobs` field.  For contrast, the same
availability request without a download key does produce
`available_blobs = ["X"]`. -/
theorem download_stage_drops_accumulated_response :
    (handle_queries
        ⟨fun _ _ => ⟨true, 1⟩, fun h => ⟨h, 7, true, true⟩, fun l => l⟩
        State.init ⟨none, some "X", some ["X"]⟩).2.available_blobs = none ∧
    (handle_queries
        ⟨fun _ _ => ⟨true, 1⟩, fun h => ⟨h, 7, true, true⟩, fun l => l⟩
        State.init ⟨none, none, some ["X"]⟩).2.available_blobs =
      some ["X"] :=
  ⟨rfl, rfl⟩

/-- Claim C8: `cancel_send` returns the given reason unchanged for every
reason value and every handler state; its only state change is clearing
the session slot (read handle and uploading blob), with a handle release
counted exactly when a session existed (so no resource release when no
session exists); and applying it twice equals applying it once. -/
theorem cancel_send_spec {α : Type} (s : State) (err : α) :
    (cancel_send s err).2 = err ∧
    (cancel_send s err).1 =
      { s with read_handle := none, currently_uploading := none,
               close_count := s.close_count +
                 (if s.currently_uploading.isSome then 1 else 0) } ∧
    (cancel_send (cancel_send s err).1 err).1 = (cancel_send s err).1 := by
  refine ⟨rfl, ?_, ?_⟩ <;> cases h : s.currently_uploading <;>
    simp [cancel_send, h]

/-- Claim C9: with no active transfer session, `send_blob_if_requested`
returns success (`True`) immediately and leaves the state untouched. -/
theorem send_blob_if_requested_noop (s : State) (chunks : List Nat)
    (res : TransferResult) (h : s.currently_uploading = none) :
    send_blob_if_requested s chunks res = (s, some true) := by
  simp [send_blob_if_requested, h]

/-- Witness for C9: the fresh handler has no session, and polling the blob
sender is a successful no-op. -/
theorem send_blob_if_requested_noop_witness :
    send_blob_if_requested State.init [3, 4] TransferResult.success =
      (State.init, some true) :=
  send_blob_if_requested_noop State.init [3, 4] TransferResult.success rfl

/-- Claim C6: with a negotiated rate set, the response to a download
request carries `incoming_blob = {blob_hash, length}` exactly when the
fetched blob is validated and a read handle is acquired; on that path the
session is created for that blob.  Otherwise the response carries
`error = BLOB_UNAVAILABLE`, `incoming_blob` stays the empty dict (no blob
metadata), and no session is created — session, handle and open counter
are unchanged. -/
theorem incoming_blob_iff_servable (env : Env) (s : State)
    (incoming : String) (r : ℚ) (h : s.blob_data_payment_rate = some r) :
    ((_reply_to_send_request env s Response.empty incoming).2.incoming_blob =
        some ⟨some (env.get_blob incoming).blob_hash,
              some (env.get_blob incoming).length⟩ ↔
      ((env.get_blob incoming).validated = true ∧
       (env.get_blob incoming).readable = true)) ∧
    (((env.get_blob incoming).validated = true ∧
      (env.get_blob incoming).readable = true) →
      (_reply_to_send_request env s Response.empty incoming).1.currently_uploading =
          some (env.get_blob incoming) ∧
      (_reply_to_send_request env s Response.empty incoming).1.read_handle =
          some ()) ∧
    (¬((env.get_blob incoming).validated = true ∧
       (env.get_blob incoming).readable = true) →
      (_reply_to_send_request env s Response.empty incoming).2.error =
          some "BLOB_UNAVAILABLE" ∧
      (_reply_to_send_request env s Response.empty incoming).2.incoming_blob =
          some IncomingBlobFields.empty ∧
      (_reply_to_send_request env s Response.empty incoming).1.currently_uploading =
          s.currently_uploading ∧
      (_reply_to_send_request env s Response.empty incoming).1.read_handle =
          s.read_handle ∧
      (_reply_to_send_request env s Response.empty incoming).1.open_count =
          s.open_count) := by
  cases hv : (env.get_blob incoming).validated <;>
    cases hr : (env.get_blob incoming).readable <;>
      simp [_reply_to_send_request, h, open_blob_for_reading,
        Blob.open_for_reading, record_transaction, hv, hr,
        IncomingBlobFields.empty]

/-- Witness for C6: a validated, readable blob of length 7 with rate 1
yields `incoming_blob = {"X", 7}`. -/
theorem incoming_blob_iff_servable_witness :
    (_reply_to_send_request
        ⟨fun _ _ => ⟨true, 1⟩, fun h => ⟨h, 7, true, true⟩, fun l => l⟩
        { State.init with blob_data_payment_rate := some 1 }
        Response.empty "X").2.incoming_blob =
      some ⟨some "X", some 7⟩ :=
  ((incoming_blob_iff_servable
      ⟨fun _ _ => ⟨true, 1⟩, fun h => ⟨h, 7, true, true⟩, fun l => l⟩
      { State.init with blob_data_payment_rate := some 1 }
      "X" 1 rfl).1).mpr ⟨rfl, rfl⟩

/-- Closed form of the per-chunk accounting: streaming a list of chunks
adds their total length to the byte counter and to the peer byte stat. -/
theorem count_all_eq (s : State) (chunks : List Nat) :
    count_all s chunks =
      { s with blob_bytes_uploaded := s.blob_bytes_uploaded + chunks.sum,
               blob_bytes_stat := s.blob_bytes_stat + chunks.sum } := by
  induction chunks generalizing s with
  | nil => simp [count_all]
  | cons c cs ih =>
      have step : count_all s (c :: cs) = count_all (count_bytes s c) cs := rfl
      rw [step, ih]
      simp [count_bytes, Nat.add_assoc]

/-- Claim C2 fails on the code, in two ways, both shown here on the state
with an open session for a validated blob of length 7 at rate 1.
First, a transfer that terminates in failure after 5 bytes registers no
expected-payment credit at all and does not reset the byte counter
(`set_expected_payment` is attached with `addCallback`, so it is skipped
on the errback path; the claim predicts a credit of `5 * 1 / 2^20` and a
zero counter).  Second, a transfer that succeeds with a residual counter
of 5 plus 7 streamed bytes (counter N = 12) registers `7 * 1 / 2^20` —
computed from `currently_uploading.length`, not from the byte counter —
whereas the claim predicts `12 * 1 / 2^20`. -/
theorem send_file_billing_counterexample :
    ((send_file
        { State.init with
            currently_uploading := some ⟨"h7", 7, true, true⟩,
            read_handle := some (), blob_data_payment_rate := some 1,
            open_count := 1 } [5] TransferResult.failure).1.expected_payments
        = [] ∧
     (send_file
        { State.init with
            currently_uploading := some ⟨"h7", 7, true, true⟩,
            read_handle := some (), blob_data_payment_rate := some 1,
            open_count := 1 } [5] TransferResult.failure).1.blob_bytes_uploaded
        = 5) ∧
    ((send_file
        { State.init with
            currently_uploading := some ⟨"h7", 7, true, true⟩,
            read_handle := some (), blob_data_payment_rate := some 1,
            open_count := 1, blob_bytes_uploaded := 5 } [7]
        TransferResult.success).1.expected_payments
        = [((7 : ℕ) : ℚ) * 1 / 2 ^ 20] ∧
     ((7 : ℕ) : ℚ) * 1 / 2 ^ 20 ≠ (12 : ℚ) * 1 / 2 ^ 20) :=
  ⟨⟨rfl, rfl⟩, rfl, by norm_num⟩

/-- Claim C2 (amended): for every transfer with a session for `blob`, a
negotiated rate `r` and a byte counter that is non-zero at finalize time,
termination in success registers exactly one expected-payment credit of
`blob.length * r / 2^20` (the blob's full length, not the byte counter)
and zeroes the byte counter; termination in failure registers no credit
and leaves the byte counter at its accumulated value; on both paths the
read handle is released and the session cleared. -/
theorem send_file_billing (s : State) (blob : Blob) (r : ℚ)
    (chunks : List Nat) (hb : s.currently_uploading = some blob)
    (hr : s.blob_data_payment_rate = some r)
    (hn : s.blob_bytes_uploaded + chunks.sum ≠ 0) :
    (send_file s chunks TransferResult.success).1.expected_payments =
        s.expected_payments ++ [(blob.length : ℚ) * r / 2 ^ 20] ∧
    (send_file s chunks TransferResult.success).1.blob_bytes_uploaded = 0 ∧
    (send_file s chunks TransferResult.success).1.currently_uploading = none ∧
    (send_file s chunks TransferResult.success).1.read_handle = none ∧
    (send_file s chunks TransferResult.success).1.close_count =
        s.close_count + 1 ∧
    (send_file s chunks TransferResult.failure).1.expected_payments =
        s.expected_payments ∧
    (send_file s chunks TransferResult.failure).1.blob_bytes_uploaded =
        s.blob_bytes_uploaded + chunks.sum ∧
    (send_file s chunks TransferResult.failure).1.currently_uploading = none ∧
    (send_file s chunks TransferResult.failure).1.read_handle = none ∧
    (send_file s chunks TransferResult.failure).1.close_count =
        s.close_count + 1 := by
  simp [send_file, count_all_eq, set_expected_payment, set_not_uploading,
    hb, hr, hn]

/-- Witness for C2 (amended): a fresh session for a validated blob of
length 7 at rate 1, fully streamed in one 7-byte chunk and terminating in
success, registers the credit `7 * 1 / 2^20`. -/
theorem send_file_billing_witness :
    (send_file
        { State.init with
            currently_uploading := some ⟨"h7", 7, true, true⟩,
            read_handle := some (), blob_data_payment_rate := some 1,
            open_count := 1 } [7] TransferResult.success).1.expected_payments
      = [((7 : ℕ) : ℚ) * 1 / 2 ^ 20] := by
  have h := send_file_billing
    { State.init with
        currently_uploading := some ⟨"h7", 7, true, true⟩,
        read_handle := some (), blob_data_payment_rate := some 1,
        open_count := 1 } ⟨"h7", 7, true, true⟩ 1 [7] rfl rfl (by decide)
  simpa using h.1

/-- Helper: `set_not_uploading` never touches the negotiated rate. -/
theorem set_not_uploading_rate (s : State) :
    (set_not_uploading s).blob_data_payment_rate =
      s.blob_data_payment_rate := by
  cases h : s.currently_uploading <;> simp [set_not_uploading, h]

/-- Helper: `set_expected_payment` never touches the negotiated rate. -/
theorem set_expected_payment_rate (s : State) :
    (set_expected_payment s).blob_data_payment_rate =
      s.blob_data_payment_rate := by
  unfold set_expected_payment
  cases h1 : s.currently_uploading <;>
    cases h2 : s.blob_data_payment_rate <;>
      (simp [h1, h2]; try (split <;> simp [h2]))

/-- Helper: `cancel_send` never touches the negotiated rate. -/
theorem cancel_send_rate {α : Type} (s : State) (err : α) :
    ((cancel_send s err).1).blob_data_payment_rate =
      s.blob_data_payment_rate := by
  cases h : s.currently_uploading <;> simp [cancel_send, h]

/-- Helper: `send_file` never touches the negotiated rate. -/
theorem send_file_rate (s : State) (chunks : List Nat)
    (res : TransferResult) :
    ((send_file s chunks res).1).blob_data_payment_rate =
      s.blob_data_payment_rate := by
  cases res <;>
    simp [send_file, count_all_eq, set_not_uploading_rate,
      set_expected_payment_rate]

/-- Helper: `send_blob_if_requested` never touches the negotiated rate. -/
theorem send_blob_if_requested_rate (s : State) (chunks : List Nat)
    (res : TransferResult) :
    ((send_blob_if_requested s chunks res).1).blob_data_payment_rate =
      s.blob_data_payment_rate := by
  cases h : s.currently_uploading <;>
    simp [send_blob_if_requested, h, send_file_rate]

/-- Helper: the download stage never touches the negotiated rate. -/
theorem _reply_to_send_request_rate (env : Env) (s : State)
    (resp : Response) (incoming : String) :
    ((_reply_to_send_request env s resp incoming).1).blob_data_payment_rate =
      s.blob_data_payment_rate := by
  unfold _reply_to_send_request open_blob_for_reading record_transaction
    Blob.open_for_reading
  cases h : s.blob_data_payment_rate with
  | none => simp [h]
  | some r =>
      cases hv : (env.get_blob incoming).validated with
      | false => simp [h, hv]
      | true =>
          cases hr2 : (env.get_blob incoming).readable with
          | false => simp [h, hv, hr2]
          | true => simp [h, hv, hr2]

/-- Helper: after one query batch the rate is exactly determined by the
offer stage: set to the reply's rate when the strategy accepted, unchanged
otherwise or when no offer was present. -/
theorem handle_queries_rate (env : Env) (s : State) (q : Queries) :
    ((handle_queries env s q).1).blob_data_payment_rate =
      (match queryOfferReply env q with
       | some reply =>
           if reply.accepted then some reply.rate
           else s.blob_data_payment_rate
       | none => s.blob_data_payment_rate) := by
  unfold handle_queries queryOfferReply _reply_to_availability reply_to_offer
  cases hb : q.requested_blobs <;>
    cases ho : q.blob_data_payment_rate <;>
      cases hd : q.requested_blob <;>
        simp [hb, ho, hd, _reply_to_send_request_rate, Response.empty] <;>
          split <;> simp [_reply_to_send_request_rate]

/-- Helper: the rate after a transport round is exactly determined by that
round's offer stage. -/
theorem runRound_rate (env : Env) (s : State) (top : TOp) :
    (runRound env s top).blob_data_payment_rate =
      (match roundOfferReply env top with
       | some reply =>
           if reply.accepted then some reply.rate
           else s.blob_data_payment_rate
       | none => s.blob_data_payment_rate) := by
  cases top with
  | cancelOp => simp [runRound, roundOfferReply, cancel_send_rate]
  | round q chunks res cm =>
      have hq := handle_queries_rate env s q
      cases hcm : cm <;> unfold runRound roundOfferReply <;> simp
      · rw [send_blob_if_requested_rate, hq]
      · cases hcu : ((handle_queries env s q).1).currently_uploading <;>
          simp [hcu, count_all_eq, cancel_send_rate, set_not_uploading_rate,
            ← hq]

/-- Claim C7: processing an offer asks the strategy with the availability
context accumulated so far, mutates the negotiated rate exactly when the
reply is accepted (to the reply's rate, overwriting any prior one),
changes no other handler state (the full-state equality below), and
always merges the serialized reply into the response.  The second
conjunct shows the accepted rate persists: across any transport round the
rate changes only through that round's offer stage.  The third conjunct
shows the current rate governs each download request: the billing record
it writes carries exactly the handler's current rate. -/
theorem reply_to_offer_spec :
    (∀ (env : Env) (s : State) (offerRate : ℚ) (request : Response),
      reply_to_offer env s offerRate request =
        ({ s with
             blob_data_payment_rate :=
               if (env.strategy offerRate
                    (request.available_blobs.getD [])).accepted then
                 some (env.strategy offerRate
                    (request.available_blobs.getD [])).rate
               else s.blob_data_payment_rate },
         { request with
             offer_fields :=
               some (env.strategy offerRate
                  (request.available_blobs.getD [])) })) ∧
    (∀ (env : Env) (s : State) (top : TOp),
      (runRound env s top).blob_data_payment_rate =
        (match roundOfferReply env top with
         | some reply =>
             if reply.accepted then some reply.rate
             else s.blob_data_payment_rate
         | none => s.blob_data_payment_rate)) ∧
    (∀ (env : Env) (s : State) (incoming : String),
      ((_reply_to_send_request env s Response.empty incoming).1).upload_history =
        s.upload_history ++
          (match s.blob_data_payment_rate with
           | some r => [((env.get_blob incoming).blob_hash, r)]
           | none => [])) := by
  refine ⟨?_, fun env s top => runRound_rate env s top, ?_⟩
  · intro env s offerRate request
    by_cases h : (env.strategy offerRate
        (request.available_blobs.getD [])).accepted <;>
      simp [reply_to_offer, h]
  · intro env s incoming
    unfold _reply_to_send_request open_blob_for_reading record_transaction
      Blob.open_for_reading
    cases h : s.blob_data_payment_rate with
    | none => simp [h]
    | some r =>
        cases hv : (env.get_blob incoming).validated with
        | false => simp [h, hv]
        | true =>
            cases hr2 : (env.get_blob incoming).readable with
            | false => simp [h, hv, hr2]
            | true => simp [h, hv, hr2]

/-- Claim C10: the negotiated rate starts unset, no operation ever resets
it to unset (the only mutation is an accepted offer's rate), and with a
rate set the `RATE_UNSET` branch of download servicing is unreachable: no
download response can carry that error. -/
theorem negotiated_rate_never_unset :
    State.init.blob_data_payment_rate = none ∧
    (∀ (env : Env) (s : State) (top : TOp),
      s.blob_data_payment_rate ≠ none →
        (runRound env s top).blob_data_payment_rate ≠ none) ∧
    (∀ (env : Env) (s : State) (incoming : String),
      s.blob_data_payment_rate ≠ none →
        (_reply_to_send_request env s Response.empty incoming).2.error ≠
          some "RATE_UNSET") := by
  refine ⟨rfl, ?_, ?_⟩
  · intro env s top h
    rw [runRound_rate]
    cases hro : roundOfferReply env top with
    | none => exact h
    | some reply =>
        by_cases ha : reply.accepted <;> simp [ha, h]
  · intro env s incoming h
    cases ho : s.blob_data_payment_rate with
    | none => exact absurd ho h
    | some r =>
        unfold _reply_to_send_request open_blob_for_reading
          record_transaction Blob.open_for_reading
        cases hv : (env.get_blob incoming).validated with
        | false => simp [ho, hv, Response.empty]
        | true =>
            cases hr2 : (env.get_blob incoming).readable with
            | false => simp [ho, hv, hr2, Response.empty]
            | true => simp [ho, hv, hr2, Response.empty]

/-- Witness for C10: with rate 1 already negotiated, a cancel round keeps
the rate set, and a download request (for an unavailable blob, the
error-prone path) does not answer `RATE_UNSET`. -/
theorem negotiated_rate_never_unset_witness :
    (runRound
        ⟨fun _ _ => ⟨true, 1⟩, fun h => ⟨h, 7, false, false⟩, fun l => l⟩
        { State.init with blob_data_payment_rate := some 1 }
        TOp.cancelOp).blob_data_payment_rate ≠ none ∧
    (_reply_to_send_request
        ⟨fun _ _ => ⟨true, 1⟩, fun h => ⟨h, 7, false, false⟩, fun l => l⟩
        { State.init with blob_data_payment_rate := some 1 }
        Response.empty "h1").2.error ≠ some "RATE_UNSET" :=
  ⟨negotiated_rate_never_unset.2.1
      ⟨fun _ _ => ⟨true, 1⟩, fun h => ⟨h, 7, false, false⟩, fun l => l⟩
      { State.init with blob_data_payment_rate := some 1 }
      TOp.cancelOp (by simp),
   negotiated_rate_never_unset.2.2
      ⟨fun _ _ => ⟨true, 1⟩, fun h => ⟨h, 7, false, false⟩, fun l => l⟩
      { State.init with blob_data_payment_rate := some 1 }
      "h1" (by simp)⟩

/-- Helper: `set_expected_payment` touches neither the session slot nor
the resource counters. -/
theorem set_expected_payment_frame (s : State) :
    (set_expected_payment s).currently_uploading = s.currently_uploading ∧
    (set_expected_payment s).read_handle = s.read_handle ∧
    (set_expected_payment s).open_count = s.open_count ∧
    (set_expected_payment s).close_count = s.close_count := by
  unfold set_expected_payment
  cases h1 : s.currently_uploading <;>
    cases h2 : s.blob_data_payment_rate <;>
      (simp [h1, h2]; try (split <;> simp [h1, h2]))

/-- Helper: `set_not_uploading` clears the session slot, closing the
handle exactly when a session existed. -/
theorem set_not_uploading_spec (s : State) :
    (set_not_uploading s).currently_uploading = none ∧
    (set_not_uploading s).read_handle =
      (if s.currently_uploading.isSome then none else s.read_handle) ∧
    (set_not_uploading s).open_count = s.open_count ∧
    (set_not_uploading s).close_count =
      s.close_count + (if s.currently_uploading.isSome then 1 else 0) := by
  cases h : s.currently_uploading <;> simp [set_not_uploading, h]

/-- Helper: `cancel_send` clears the session slot, closing the handle
exactly when a session existed, and never opens. -/
theorem cancel_send_frame {α : Type} (s : State) (err : α) :
    ((cancel_send s err).1).currently_uploading = none ∧
    ((cancel_send s err).1).read_handle = none ∧
    ((cancel_send s err).1).open_count = s.open_count ∧
    ((cancel_send s err).1).close_count =
      s.close_count + (if s.currently_uploading.isSome then 1 else 0) := by
  cases h : s.currently_uploading <;> simp [cancel_send, h]

/-- Helper: a transfer started with an active session always ends with the
session cleared, the handle closed exactly once, and no new handle
opened, whether it succeeds or fails. -/
theorem send_file_session (s : State) (chunks : List Nat)
    (res : TransferResult) (h : s.currently_uploading.isSome = true) :
    ((send_file s chunks res).1).currently_uploading = none ∧
    ((send_file s chunks res).1).read_handle = none ∧
    ((send_file s chunks res).1).open_count = s.open_count ∧
    ((send_file s chunks res).1).close_count = s.close_count + 1 := by
  have hca := count_all_eq { s with file_sender := true } chunks
  have hcu : (count_all { s with file_sender := true } chunks).currently_uploading
      = s.currently_uploading := by rw [hca]
  have hoc : (count_all { s with file_sender := true } chunks).open_count
      = s.open_count := by rw [hca]
  have hcc : (count_all { s with file_sender := true } chunks).close_count
      = s.close_count := by rw [hca]
  cases res with
  | success =>
      have hsf : (send_file s chunks TransferResult.success).1 =
          set_not_uploading (set_expected_payment
            (count_all { s with file_sender := true } chunks)) := rfl
      obtain ⟨f1, f2, f3, f4⟩ := set_expected_payment_frame
        (count_all { s with file_sender := true } chunks)
      obtain ⟨g1, g2, g3, g4⟩ := set_not_uploading_spec
        (set_expected_payment (count_all { s with file_sender := true } chunks))
      refine ⟨by rw [hsf, g1], ?_, ?_, ?_⟩
      · rw [hsf, g2, f1, hcu, h]; simp
      · rw [hsf, g3, f3, hoc]
      · rw [hsf, g4, f4, f1, hcu, h, hcc]; simp
  | failure =>
      have hsf : (send_file s chunks TransferResult.failure).1 =
          set_not_uploading (count_all { s with file_sender := true } chunks) := rfl
      obtain ⟨g1, g2, g3, g4⟩ := set_not_uploading_spec
        (count_all { s with file_sender := true } chunks)
      refine ⟨by rw [hsf, g1], ?_, ?_, ?_⟩
      · rw [hsf, g2, hcu, h]; simp
      · rw [hsf, g3, hoc]
      · rw [hsf, g4, hcu, h, hcc]; simp

/-- Helper: the download stage either leaves the session slot and the
resource counters alone, or installs a fresh session with exactly one new
open and no close. -/
theorem _reply_to_send_request_session (env : Env) (s : State)
    (resp : Response) (incoming : String) :
    (((_reply_to_send_request env s resp incoming).1).currently_uploading =
        s.currently_uploading ∧
     ((_reply_to_send_request env s resp incoming).1).read_handle =
        s.read_handle ∧
     ((_reply_to_send_request env s resp incoming).1).open_count =
        s.open_count ∧
     ((_reply_to_send_request env s resp incoming).1).close_count =
        s.close_count) ∨
    (((_reply_to_send_request env s resp incoming).1).currently_uploading.isSome
        = true ∧
     ((_reply_to_send_request env s resp incoming).1).read_handle = some () ∧
     ((_reply_to_send_request env s resp incoming).1).open_count =
        s.open_count + 1 ∧
     ((_reply_to_send_request env s resp incoming).1).close_count =
        s.close_count) := by
  unfold _reply_to_send_request open_blob_for_reading record_transaction
    Blob.open_for_reading
  cases h : s.blob_data_payment_rate with
  | none => left; simp [h]
  | some r =>
      cases hv : (env.get_blob incoming).validated with
      | false => left; simp [h, hv]
      | true =>
          cases hr2 : (env.get_blob incoming).readable with
          | false => left; simp [h, hv, hr2]
          | true => right; simp [h, hv, hr2]

/-- Helper: the download-stage characterization, transported along a state
whose session slot and resource counters agree with a reference state. -/
theorem _reply_to_send_request_session_of (env : Env) (X s : State)
    (resp : Response) (incoming : String)
    (e1 : X.currently_uploading = s.currently_uploading)
    (e2 : X.read_handle = s.read_handle)
    (e3 : X.open_count = s.open_count)
    (e4 : X.close_count = s.close_count) :
    (((_reply_to_send_request env X resp incoming).1).currently_uploading =
        s.currently_uploading ∧
     ((_reply_to_send_request env X resp incoming).1).read_handle =
        s.read_handle ∧
     ((_reply_to_send_request env X resp incoming).1).open_count =
        s.open_count ∧
     ((_reply_to_send_request env X resp incoming).1).close_count =
        s.close_count) ∨
    (((_reply_to_send_request env X resp incoming).1).currently_uploading.isSome
        = true ∧
     ((_reply_to_send_request env X resp incoming).1).read_handle = some () ∧
     ((_reply_to_send_request env X resp incoming).1).open_count =
        s.open_count + 1 ∧
     ((_reply_to_send_request env X resp incoming).1).close_count =
        s.close_count) := by
  rcases _reply_to_send_request_session env X resp incoming with
    ⟨a1, a2, a3, a4⟩ | ⟨a1, a2, a3, a4⟩
  · exact Or.inl ⟨a1.trans e1, a2.trans e2, a3.trans e3, a4.trans e4⟩
  · exact Or.inr ⟨a1, a2, by rw [a3, e3], a4.trans e4⟩

/-- Helper: one query batch either leaves the session slot and the
resource counters alone, or installs a fresh session with exactly one new
open and no close. -/
theorem handle_queries_session (env : Env) (s : State) (q : Queries) :
    (((handle_queries env s q).1).currently_uploading =
        s.currently_uploading ∧
     ((handle_queries env s q).1).read_handle = s.read_handle ∧
     ((handle_queries env s q).1).open_count = s.open_count ∧
     ((handle_queries env s q).1).close_count = s.close_count) ∨
    (((handle_queries env s q).1).currently_uploading.isSome = true ∧
     ((handle_queries env s q).1).read_handle = some () ∧
     ((handle_queries env s q).1).open_count = s.open_count + 1 ∧
     ((handle_queries env s q).1).close_count = s.close_count) := by
  unfold handle_queries _reply_to_availability reply_to_offer
  cases hb : q.requested_blobs <;>
    cases ho : q.blob_data_payment_rate <;>
      cases hd : q.requested_blob <;> simp only [hb, ho, hd]
  · left; simp
  · exact _reply_to_send_request_session_of env s s Response.empty _
      rfl rfl rfl rfl
  · left; refine ⟨?_, ?_, ?_, ?_⟩ <;> (split <;> rfl)
  · exact _reply_to_send_request_session_of env _ s Response.empty _
      (by split <;> rfl) (by split <;> rfl) (by split <;> rfl)
      (by split <;> rfl)
  · left; simp
  · exact _reply_to_send_request_session_of env _ s Response.empty _
      rfl rfl rfl rfl
  · left; refine ⟨?_, ?_, ?_, ?_⟩ <;> (split <;> rfl)
  · exact _reply_to_send_request_session_of env _ s Response.empty _
      (by split <;> rfl) (by split <;> rfl) (by split <;> rfl)
      (by split <;> rfl)

/-- Helper: starting a transport round from a quiescent state (no session,
no handle, opens = closes) ends in a quiescent state again, and the round
opens at most one handle. -/
theorem runRound_balance (env : Env) (s : State) (top : TOp)
    (h1 : s.currently_uploading = none) (h2 : s.read_handle = none)
    (h3 : s.open_count = s.close_count) :
    (runRound env s top).currently_uploading = none ∧
    (runRound env s top).read_handle = none ∧
    (runRound env s top).open_count = (runRound env s top).close_count ∧
    (runRound env s top).open_count ≤ s.open_count + 1 := by
  cases top with
  | cancelOp =>
      obtain ⟨c1, c2, c3, c4⟩ := cancel_send_frame s ()
      have hrr : runRound env s TOp.cancelOp = (cancel_send s ()).1 := rfl
      rw [hrr]
      refine ⟨c1, c2, ?_, ?_⟩
      · rw [c3, c4, h1]; simpa using h3
      · rw [c3]; omega
  | round q chunks res cm =>
      rcases handle_queries_session env s q with
        ⟨a1, a2, a3, a4⟩ | ⟨a1, a2, a3, a4⟩
      · -- the batch did not create a session
        have b1 : ((handle_queries env s q).1).currently_uploading = none :=
          a1.trans h1
        have b2 : ((handle_queries env s q).1).read_handle = none :=
          a2.trans h2
        cases cm with
        | true =>
            have hrr : runRound env s (TOp.round q chunks res true) =
                (match (handle_queries env s q).1.currently_uploading with
                 | some _ =>
                     set_not_uploading
                       ((cancel_send
                         (count_all
                           { (handle_queries env s q).1 with
                               file_sender := true } chunks) ()).1)
                 | none =>
                     (cancel_send (handle_queries env s q).1 ()).1) := rfl
            have hrr2 : runRound env s (TOp.round q chunks res true) =
                (cancel_send (handle_queries env s q).1 ()).1 := by
              rw [hrr, b1]
            obtain ⟨c1, c2, c3, c4⟩ :=
              cancel_send_frame (handle_queries env s q).1 ()
            rw [hrr2]
            refine ⟨c1, c2, ?_, ?_⟩
            · rw [c3, c4, b1, a3, a4]; simpa using h3
            · rw [c3, a3]; omega
        | false =>
            have hrr : runRound env s (TOp.round q chunks res false) =
                (send_blob_if_requested (handle_queries env s q).1
                  chunks res).1 := rfl
            have hsb : send_blob_if_requested (handle_queries env s q).1
                chunks res = ((handle_queries env s q).1, some true) := by
              unfold send_blob_if_requested; rw [b1]
            rw [hrr, hsb]
            refine ⟨b1, b2, ?_, ?_⟩
            · rw [a3, a4]; exact h3
            · rw [a3]; omega
      · -- the batch created a session; the transport drains it
        obtain ⟨b, hb⟩ := Option.isSome_iff_exists.mp a1
        cases cm with
        | true =>
            have hrr : runRound env s (TOp.round q chunks res true) =
                (match (handle_queries env s q).1.currently_uploading with
                 | some _ =>
                     set_not_uploading
                       ((cancel_send
                         (count_all
                           { (handle_queries env s q).1 with
                               file_sender := true } chunks) ()).1)
                 | none =>
                     (cancel_send (handle_queries env s q).1 ()).1) := rfl
            have hrr2 : runRound env s (TOp.round q chunks res true) =
                set_not_uploading
                  ((cancel_send
                    (count_all
                      { (handle_queries env s q).1 with file_sender := true }
                      chunks) ()).1) := by
              rw [hrr, hb]
            have hca := count_all_eq
              { (handle_queries env s q).1 with file_sender := true } chunks
            have m1 : (count_all
                { (handle_queries env s q).1 with file_sender := true }
                chunks).currently_uploading =
                ((handle_queries env s q).1).currently_uploading := by
              rw [hca]
            have m3 : (count_all
                { (handle_queries env s q).1 with file_sender := true }
                chunks).open_count =
                ((handle_queries env s q).1).open_count := by rw [hca]
            have m4 : (count_all
                { (handle_queries env s q).1 with file_sender := true }
                chunks).close_count =
                ((handle_queries env s q).1).close_count := by rw [hca]
            obtain ⟨c1, c2, c3, c4⟩ := cancel_send_frame
              (count_all
                { (handle_queries env s q).1 with file_sender := true }
                chunks) ()
            obtain ⟨g1, g2, g3, g4⟩ := set_not_uploading_spec
              ((cancel_send
                (count_all
                  { (handle_queries env s q).1 with file_sender := true }
                  chunks) ()).1)
            rw [hrr2]
            refine ⟨g1, ?_, ?_, ?_⟩
            · rw [g2, c1]; simpa using c2
            · rw [g3, g4, c1, c3, c4, m1, m3, m4, hb, a3, a4]
              simp [h3]
            · rw [g3, c3, m3, a3]
        | false =>
            have hrr : runRound env s (TOp.round q chunks res false) =
                (send_blob_if_requested (handle_queries env s q).1
                  chunks res).1 := rfl
            have hsb : send_blob_if_requested (handle_queries env s q).1
                chunks res = send_file (handle_queries env s q).1
                  chunks res := by
              unfold send_blob_if_requested; rw [hb]
            obtain ⟨f1, f2, f3, f4⟩ := send_file_session
              (handle_queries env s q).1 chunks res a1
            rw [hrr, hsb]
            refine ⟨f1, f2, ?_, ?_⟩
            · rw [f3, f4, a3, a4]; simpa using h3
            · rw [f3, a3]

/-- Claim C5: across every transport-driven execution of the handler
(download servicing rounds, streaming completion or failure, mid-stream
and speculative cancellation), opens and closes balance: after any trace
the number of handle-open calls equals the number of handle-close calls
and no session or handle is left behind, and any further round opens at
most one more handle.  Since every prefix of a trace is itself a trace,
the counters agree at every round boundary, so no two opens ever occur
without an intervening close. -/
theorem read_handle_balance (env : Env) (t : List TOp) :
    (runTrace env t).open_count = (runTrace env t).close_count ∧
    (runTrace env t).currently_uploading = none ∧
    (runTrace env t).read_handle = none ∧
    ∀ top : TOp,
      (runRound env (runTrace env t) top).open_count ≤
        (runTrace env t).open_count + 1 := by
  have main : ∀ (u : List TOp) (s : State), s.currently_uploading = none →
      s.read_handle = none → s.open_count = s.close_count →
      ((u.foldl (runRound env) s).currently_uploading = none ∧
       (u.foldl (runRound env) s).read_handle = none ∧
       (u.foldl (runRound env) s).open_count =
         (u.foldl (runRound env) s).close_count) := by
    intro u
    induction u with
    | nil => intro s h1 h2 h3; exact ⟨h1, h2, h3⟩
    | cons op rest ih =>
        intro s h1 h2 h3
        obtain ⟨r1, r2, r3, _⟩ := runRound_balance env s op h1 h2 h3
        exact ih (runRound env s op) r1 r2 r3
  obtain ⟨m1, m2, m3⟩ := main t State.init rfl rfl rfl
  refine ⟨m3, m1, m2, fun top => ?_⟩
  exact (runRound_balance env (runTrace env t) top m1 m2 m3).2.2.2

end BlobRequestHandler
